import Mathlib

/-!
Shallow embedding of the Swappo-DevOps repository's three Python artifacts:

* `src/cloud-functions/shipping-estimates/main.py` — the rate-lookup shipping
  estimate cloud function `get_shipping_estimate`;
* `src/ci-cd-templates/integration-tests/integration_test.py` — the readiness
  fixture `wait_for_services` and the test cases;
* `src/test_grpc_connection.py` — the gRPC smoke-test script.

JSON values are modelled by an inductive `Json`; Python's truthiness, `dict.get`,
subscripting and `float()` are modelled as total Lean functions returning
`Except String _` where the Python operation can raise (the `String` is the
exception's message). The upstream Easyship call is a parameter of the handler:
a function from the request the code builds to an abstract outcome.
-/

namespace Swappo

/-- A parsed JSON value, as returned by Flask's `request.get_json` or
`requests`' `response.json()`. Numbers are modelled as rationals. -/
inductive Json where
  | null
  | bool (b : Bool)
  | num (q : ℚ)
  | str (s : String)
  | arr (elems : List Json)
  | obj (fields : List (String × Json))

/-- Python truthiness (`bool(x)`) of a JSON value: `None`, `False`, `0`, `""`,
`[]` and the empty object are falsy, everything else truthy. -/
def jsonTruthy : Json → Bool
  | .null => false
  | .bool b => b
  | .num q => q != 0
  | .str s => s != ""
  | .arr xs => !xs.isEmpty
  | .obj fs => !fs.isEmpty

/-- Lookup of a key in a JSON object's field list (first match; a parsed JSON
object has unique keys). -/
def dictGet (fields : List (String × Json)) (key : String) (dflt : Json) : Json :=
  match fields.find? (fun p => p.1 == key) with
  | some p => p.2
  | none => dflt

/-- Python `x.get(key, default)`: succeeds on a JSON object, raises
`AttributeError` on any other value. -/
def pyGet (j : Json) (key : String) (dflt : Json) : Except String Json :=
  match j with
  | .obj fs => .ok (dictGet fs key dflt)
  | _ => .error "object has no attribute get"

/-- Python `x[key]` for a string key: on an object, the value or a `KeyError`;
on any other value a `TypeError`. -/
def pyIndex (j : Json) (key : String) : Except String Json :=
  match j with
  | .obj fs =>
    match fs.find? (fun p => p.1 == key) with
    | some p => .ok p.2
    | none => .error ("KeyError: " ++ key)
  | _ => .error "value is not subscriptable by a string"

/-- Numeric value of a list of decimal digits. -/
def digitsVal (ds : List Char) : Nat :=
  ds.foldl (fun n c => n * 10 + (c.toNat - 48)) 0

/-- Parse the decimal notations `float()` accepts that the repository can
meet: optional sign, digits, optional fractional part. (Exponents, infinities
and surrounding whitespace never arise in the claims and are not modelled.) -/
def parseDecimal (s : String) : Option ℚ :=
  let core : List Char → Option ℚ := fun cs =>
    let ip := cs.takeWhile (fun c => c.isDigit)
    let rest := cs.dropWhile (fun c => c.isDigit)
    match rest with
    | [] => if ip.isEmpty then none else some ((digitsVal ip : ℚ))
    | '.' :: fp =>
      if fp.all (fun c => c.isDigit) && (!ip.isEmpty || !fp.isEmpty) then
        some ((digitsVal ip : ℚ) + (digitsVal fp : ℚ) / (10 ^ fp.length))
      else none
    | _ => none
  match s.toList with
  | '-' :: cs => (core cs).map (fun q => -q)
  | '+' :: cs => core cs
  | cs => core cs

/-- Python `float(x)` on a JSON value: numbers and booleans convert, numeric
strings parse, everything else raises `ValueError`/`TypeError`. -/
def pyFloat : Json → Except String ℚ
  | .num q => .ok q
  | .bool b => .ok (if b then 1 else 0)
  | .str s =>
    match parseDecimal s with
    | some q => .ok q
    | none => .error ("could not convert string to float: " ++ s)
  | _ => .error "float argument must be a string or a real number"

/-! ## The rate-lookup shipping estimate handler (`main.py`) -/

/-- HTTP method of the incoming request. The handler only distinguishes
`OPTIONS` from everything else. -/
inductive Method where
  | OPTIONS
  | GET
  | POST
deriving DecidableEq

/-- The `estimate` object of a success response: the raw JSON values the code
copies out of the cheapest quote. -/
structure Estimate where
  cost : Json
  currency : Json
  courier : Json

/-- Body of an HTTP response from the handler: empty (the `OPTIONS` reply) or
the jsonified payload with `success`, optional `error`, optional `estimate`. -/
inductive RespBody where
  | empty
  | payload (success : Bool) (error : Option String) (estimate : Option Estimate)

/-- An HTTP response: status code, body, and whether the headers carry
`Access-Control-Allow-Origin: *`. -/
structure HttpResponse where
  status : Nat
  body : RespBody
  corsStar : Bool

/-- The single synthetic package the code always ships: weight from the input,
fixed 10×10×10 dimensions, `USD`, declared customs value 50. -/
structure EasyshipItem where
  actual_weight : ℚ
  height : ℚ
  width : ℚ
  length : ℚ
  declared_currency : String
  declared_customs_value : ℚ

/-- The request body the handler sends to the Easyship `/rates` endpoint;
fields coming from the input JSON keep their raw JSON values. -/
structure EasyshipRequest where
  origin_country_alpha2 : Json
  destination_country_alpha2 : Json
  taxes_duties_paid_by : String
  is_insured : Bool
  items : List EasyshipItem
  destination_city : Option Json
  destination_postal_code : Option Json
  destination_state : Option Json

/-- Outcome of `requests.post` to the Easyship API: the call raises a
`requests` exception, or a response arrives (with Python's `response.ok`
flag, the status, and its parsed JSON body), or a response arrives whose
body fails to parse as JSON (`response.json()` raises `msg`). -/
inductive UpstreamOutcome where
  | exn (msg : String)
  | response (ok : Bool) (status : Nat) (respBody : Json)
  | badJson (ok : Bool) (status : Nat) (msg : String)

/-- The 400 response for a missing/unparseable/falsy JSON body. -/
def respBadBody : HttpResponse :=
  ⟨400, .payload false (some "Request body must be JSON") none, true⟩

/-- The 500 response for a non-ok upstream status. -/
def respUpstreamErr (status : Nat) : HttpResponse :=
  ⟨500, .payload false (some ("Easyship API error: " ++ toString status)) none, true⟩

/-- The 404 response for an empty (falsy) rates list. -/
def respNoRates : HttpResponse :=
  ⟨404, .payload false (some "No shipping rates available") none, true⟩

/-- The parameter-extraction and Easyship-request-building block of the
handler (`main.py` lines 66–96): five `request_json.get` calls with their
defaults (`from_country` and `to_country` both default to `"US"`, the three
destination detail fields to `None`), then `float(...)` on `weight_kg`
(default `1.0`); the three detail fields are attached only when truthy.
Any raising step surfaces as `.error`. -/
def buildEasyshipRequest (j : Json) : Except String EasyshipRequest :=
  match pyGet j "from_country" (.str "US") with
  | .error e => .error e
  | .ok from_country =>
    match pyGet j "to_country" (.str "US") with
    | .error e => .error e
    | .ok to_country =>
      match pyGet j "to_city" .null with
      | .error e => .error e
      | .ok to_city =>
        match pyGet j "to_postal_code" .null with
        | .error e => .error e
        | .ok to_postal_code =>
          match pyGet j "to_state" .null with
          | .error e => .error e
          | .ok to_state =>
            match pyGet j "weight_kg" (.num 1) with
            | .error e => .error e
            | .ok w =>
              match pyFloat w with
              | .error e => .error e
              | .ok weight_kg =>
                .ok ⟨from_country, to_country, "Sender", false,
                  [⟨weight_kg, 10, 10, 10, "USD", 50⟩],
                  if jsonTruthy to_city then some to_city else none,
                  if jsonTruthy to_postal_code then some to_postal_code else none,
                  if jsonTruthy to_state then some to_state else none⟩

/-- `total_charge` of one rate object, as `min`'s key function reads it:
subscript the object and use the value as a number. (The claims only
exercise numeric charges; a non-numeric charge is modelled as raising, as a
mixed-type comparison would.) -/
def rateCharge (r : Json) : Except String ℚ :=
  match pyIndex r "total_charge" with
  | .error e => .error e
  | .ok (.num q) => .ok q
  | .ok _ => .error "total_charge is not a number"

/-- Tail of Python's `min(rates, key=...)`: scan the remaining rates, keeping
the current best; a later rate replaces the best only when its charge is
strictly smaller, so ties keep the first-encountered rate. -/
def minRateAux (best : Json) (bestCharge : ℚ) : List Json → Except String Json
  | [] => .ok best
  | r :: rs =>
    match rateCharge r with
    | .error e => .error e
    | .ok c =>
      if c < bestCharge then minRateAux r c rs else minRateAux best bestCharge rs

/-- Python's `min(rates, key=lambda r: r['total_charge'])`. -/
def minRate : List Json → Except String Json
  | [] => .error "min arg is an empty sequence"
  | r :: rs =>
    match rateCharge r with
    | .error e => .error e
    | .ok c => minRateAux r c rs

/-- The `try:` block of `get_shipping_estimate` (`main.py` lines 56–140) for a
non-`OPTIONS` request: `.ok` is a returned response, `.error` an exception
that escapes to the top-level `except`. `parsedBody` is what
`request.get_json(silent=True)` produced (`none` = absent or unparseable body),
`upstream` the behaviour of the Easyship `/rates` call. -/
def shippingTryBody (parsedBody : Option Json)
    (upstream : EasyshipRequest → UpstreamOutcome) : Except String HttpResponse :=
  match parsedBody with
  | none => .ok respBadBody
  | some j =>
    if jsonTruthy j = false then .ok respBadBody
    else
      match buildEasyshipRequest j with
      | .error e => .error e
      | .ok req =>
        match upstream req with
        | .exn msg => .error msg
        | .badJson ok status msg =>
          if ok = false then .ok (respUpstreamErr status) else .error msg
        | .response ok status respJson =>
          if ok = false then .ok (respUpstreamErr status)
          else
            match pyGet respJson "rates" (.arr []) with
            | .error e => .error e
            | .ok ratesJ =>
              if jsonTruthy ratesJ = false then .ok respNoRates
              else
                match ratesJ with
                | .arr rates =>
                  match minRate rates with
                  | .error e => .error e
                  | .ok cheapest =>
                    match pyIndex cheapest "total_charge",
                          pyIndex cheapest "currency",
                          pyIndex cheapest "courier_name" with
                    | .ok c, .ok cur, .ok cour =>
                      .ok ⟨200, .payload true none (some ⟨c, cur, cour⟩), true⟩
                    | .error e, _, _ => .error e
                    | _, .error e, _ => .error e
                    | _, _, .error e => .error e
                | _ => .error "rates value is not iterable over rate objects"

/-- The whole handler `get_shipping_estimate`: `OPTIONS` short-circuits to an
empty 204 with CORS headers; otherwise the `try:` block runs and any exception
is caught and turned into a 500 whose `error` is the exception's message.
The function is total: no exception propagates to the caller. -/
def get_shipping_estimate (method : Method) (parsedBody : Option Json)
    (upstream : EasyshipRequest → UpstreamOutcome) : HttpResponse :=
  match method with
  | .OPTIONS => ⟨204, .empty, true⟩
  | _ =>
    match shippingTryBody parsedBody upstream with
    | .ok resp => resp
    | .error msg => ⟨500, .payload false (some msg) none, true⟩

/-! ## Rate quotes for reasoning about the cheapest-rate selection -/

/-- A well-formed rate quote, with the three fields the handler reads. -/
structure Quote where
  total_charge : ℚ
  currency : String
  courier_name : String
deriving DecidableEq

/-- The JSON object Easyship returns for one quote (the three fields the
handler touches). -/
def mkRateJson (q : Quote) : Json :=
  .obj [("total_charge", .num q.total_charge),
        ("currency", .str q.currency),
        ("courier_name", .str q.courier_name)]

/-- An Easyship `/rates` response body holding exactly the given quotes. -/
def ratesResponse (qs : List Quote) : Json :=
  .obj [("rates", .arr (qs.map mkRateJson))]

/-- An upstream that answers every request with HTTP 200 and the given quotes. -/
def ratesUpstream (qs : List Quote) : EasyshipRequest → UpstreamOutcome :=
  fun _ => .response true 200 (ratesResponse qs)

/-- Value-level mirror of `minRateAux` on well-formed quotes: keep the current
best, replacing it only on a strictly smaller charge. -/
def minQuoteAux (best : Quote) : List Quote → Quote
  | [] => best
  | q :: qs =>
    if q.total_charge < best.total_charge then minQuoteAux q qs
    else minQuoteAux best qs

/-! ## The readiness fixture `wait_for_services` (`integration_test.py` 20–42) -/

/-- Outcome of one `requests.get(url + "/health", timeout=2)` attempt: the
request raises a `requests` exception, or a response with some status arrives. -/
inductive Attempt where
  | exn
  | resp (status : Nat)

/-- What the readiness loop for one service ends in: `healthy i` — attempt `i`
answered 200 and the loop broke out; `failRun` — `pytest.fail` fired, aborting
the whole run; `fellThrough` — the `for` loop exhausted `range(30)` without
breaking and without failing, so the fixture just moves on. -/
inductive WaitResult where
  | healthy (attempt : Nat)
  | failRun
  | fellThrough
deriving DecidableEq

/-- The body of `for i in range(30)` for one service, paired with the number of
`time.sleep(1)` calls performed. `trace i` is the outcome of the attempt at
index `i`; `fuel` is the number of loop iterations left (`30 - i`). A non-200
response neither sleeps nor can fail the run; `pytest.fail` fires only when the
attempt at `i = 29` raises; a raising attempt at `i < 29` sleeps one second. -/
def waitAux (trace : Nat → Attempt) : Nat → Nat → Nat → WaitResult × Nat
  | _, sleeps, 0 => (.fellThrough, sleeps)
  | i, sleeps, fuel + 1 =>
    match trace i with
    | .resp s => if s = 200 then (.healthy i, sleeps) else waitAux trace (i + 1) sleeps fuel
    | .exn => if i = 29 then (.failRun, sleeps) else waitAux trace (i + 1) (sleeps + 1) fuel

/-- The readiness loop for one service: 30 attempts starting at `i = 0`. -/
def wait_for_service (trace : Nat → Attempt) : WaitResult × Nat :=
  waitAux trace 0 0 30

/-- The whole `wait_for_services` fixture over the configured services in
order: returns `some name` when the loop for `name` aborted the run via
`pytest.fail`, and `none` when every service's loop ended by break or by
falling through (the fixture then returns and the test cases execute). -/
def wait_for_services : List (String × (Nat → Attempt)) → Option String
  | [] => none
  | (name, trace) :: rest =>
    match (wait_for_service trace).1 with
    | .failRun => some name
    | _ => wait_for_services rest

/-! ## The workflow test cases (`integration_test.py` 72–125) -/

/-- Python `key in j` for a string key: key membership for an object, element
membership for an array (a string equals only a string), substring test for a
string. On `None`/numbers/booleans Python raises `TypeError`; at the use sites
that aborts the test case exactly as a false assertion does, so it is modelled
as `false`. -/
def pyContains (j : Json) (s : String) : Bool :=
  match j with
  | .obj fs => fs.any (fun p => p.1 == s)
  | .arr xs => xs.any (fun x => match x with | .str t => t == s | _ => false)
  | .str t => s == "" || (t.splitOn s).length ≥ 2
  | _ => false

/-- The registration step's assertion (`integration_test.py` line 81):
`response.status_code in [200, 201, 409]`. -/
def registrationStepPasses (status : Nat) : Bool :=
  [200, 201, 409].contains status

/-- `test_user_registration_and_login` (lines 72–91): the registration
assertion, then the login assertions (`status == 200` and a token under
`access_token` or `token`); the test passes only when every assertion holds,
and a failed assertion aborts the rest of the case. -/
def test_user_registration_and_login (regStatus loginStatus : Nat)
    (loginBody : Json) : Bool :=
  registrationStepPasses regStatus &&
    (loginStatus == 200) &&
    (pyContains loginBody "access_token" || pyContains loginBody "token")

/-- `test_catalog_requires_auth` (lines 116–125): the unauthenticated request
must land in `[401, 403]` and the bearer-token request in `[200, 404]`. -/
def test_catalog_requires_auth (noTokenStatus withTokenStatus : Nat) : Bool :=
  [401, 403].contains noTokenStatus && [200, 404].contains withTokenStatus

/-! ## The gRPC smoke-test script (`test_grpc_connection.py`) -/

/-- One entry of `validate_items`' result. -/
structure ValidationEntry where
  item_id : Nat
  item_exists : Bool
  is_active : Bool

/-- Result of `get_item`: `none` prints a warning but is not a failure. -/
structure Item where
  name : String

/-- Result of `get_items`. -/
structure ItemsResult where
  items : List Item
  not_found_ids : List Nat

/-- What one step of the script produced: a value, or a raised exception. -/
def stepOk {α : Type} : Except String α → Bool
  | .ok _ => true
  | .error _ => false

/-- Observable outcome of running `test_grpc`: whether it returned `True`,
how many of the three RPC calls were attempted, and whether the `except`
branch printed a stack trace. -/
structure GrpcRun where
  success : Bool
  rpcCallsAttempted : Nat
  tracePrinted : Bool
deriving DecidableEq

/-- `test_grpc` (lines 12–46): obtain the client, then run the three RPCs in
order — `validate_items([1, 2, 999])`, `get_item(1)`, `get_items([1, 2, 3])`.
The first raising step jumps to the `except` branch, which prints a stack
trace and returns `False`; the steps after it never run. -/
def test_grpc (client : Except String Unit)
    (validate : Except String (List ValidationEntry))
    (getOne : Except String (Option Item))
    (getMany : Except String ItemsResult) : GrpcRun :=
  match client with
  | .error _ => ⟨false, 0, true⟩
  | .ok _ =>
    match validate with
    | .error _ => ⟨false, 1, true⟩
    | .ok _ =>
      match getOne with
      | .error _ => ⟨false, 2, true⟩
      | .ok _ =>
        match getMany with
        | .error _ => ⟨false, 3, true⟩
        | .ok _ => ⟨true, 3, false⟩

/-- The `__main__` block (lines 48–50): `sys.exit(0 if success else 1)`. -/
def scriptExitCode (run : GrpcRun) : Nat :=
  if run.success then 0 else 1

/-! ## The formula-based shipping variant -/

/-- Modelled from the spec: the formula-based shipping variant ("variant B",
spec §4.2 and §8) has no source file under `src/`; the spec gives
`cost = base_cost + weight_kg * per_kg_rate + zone_cost` with
`base_cost = 8.0`, `per_kg_rate = 6.50`, and a decision table tried in the
priority order domestic, EU-internal, US-involved, other. The spec fixes the
domestic row (`zone_cost = 0`, courier `"National Post"`) and the EU row
(`zone_cost = 12.0`, courier `"DHL Express EU"`) through its test vectors, but
neither the full EU country list nor the US-involved/other rows, so those stay
parameters. -/
def formulaZone (from_country to_country : String) (eu : List String)
    (usZone otherZone : ℚ) (usCourier otherCourier : String) : ℚ × String :=
  if from_country = to_country then (0, "National Post")
  else if from_country ∈ eu ∧ to_country ∈ eu then (12, "DHL Express EU")
  else if from_country = "US" ∨ to_country = "US" then (usZone, usCourier)
  else (otherZone, otherCourier)

/-- Modelled from the spec: round a cost to 2 decimal places (every cost the
claims exercise is already an exact multiple of 1/100, so the tie-breaking
convention of the rounding is immaterial). -/
def round2 (q : ℚ) : ℚ :=
  ((round (q * 100) : ℤ) : ℚ) / 100

/-- Modelled from the spec: the formula variant's cost and courier. -/
def formulaEstimate (from_country to_country : String) (weight_kg : ℚ)
    (eu : List String) (usZone otherZone : ℚ)
    (usCourier otherCourier : String) : ℚ × String :=
  let z := formulaZone from_country to_country eu usZone otherZone usCourier otherCourier
  (round2 (8 + weight_kg * 6.5 + z.1), z.2)

/-! ## Helper lemmas -/

/-- The key function reads `total_charge` off a well-formed quote object. -/
theorem rateCharge_mk (q : Quote) : rateCharge (mkRateJson q) = .ok q.total_charge := rfl

theorem pyIndex_mk_charge (q : Quote) :
    pyIndex (mkRateJson q) "total_charge" = .ok (.num q.total_charge) := rfl

theorem pyIndex_mk_currency (q : Quote) :
    pyIndex (mkRateJson q) "currency" = .ok (.str q.currency) := rfl

theorem pyIndex_mk_courier (q : Quote) :
    pyIndex (mkRateJson q) "courier_name" = .ok (.str q.courier_name) := rfl

/-- On well-formed quotes, the scan over the rate objects mirrors the scan
over the quotes. -/
theorem minRateAux_map (qs : List Quote) : ∀ b : Quote,
    minRateAux (mkRateJson b) b.total_charge (qs.map mkRateJson) =
      .ok (mkRateJson (minQuoteAux b qs)) := by
  induction qs with
  | nil => intro b; rfl
  | cons x xs ih =>
    intro b
    simp only [List.map_cons, minRateAux, rateCharge_mk, minQuoteAux]
    by_cases h : x.total_charge < b.total_charge
    · simp only [if_pos h, ih]
    · simp only [if_neg h, ih]

/-- `min` over a nonempty list of well-formed quote objects returns the quote
object of `minQuoteAux`. -/
theorem minRate_map (b : Quote) (qs : List Quote) :
    minRate ((b :: qs).map mkRateJson) = .ok (mkRateJson (minQuoteAux b qs)) := by
  simp only [List.map_cons, minRate, rateCharge_mk, minRateAux_map]

/-- The kept quote's charge is a lower bound for the initial best and for
every scanned quote. -/
theorem minQuoteAux_le (qs : List Quote) : ∀ b : Quote,
    (minQuoteAux b qs).total_charge ≤ b.total_charge ∧
      ∀ x ∈ qs, (minQuoteAux b qs).total_charge ≤ x.total_charge := by
  induction qs with
  | nil => intro b; exact ⟨le_refl _, by simp⟩
  | cons x xs ih =>
    intro b
    by_cases h : x.total_charge < b.total_charge
    · simp only [minQuoteAux, if_pos h]
      refine ⟨le_trans (ih x).1 h.le, ?_⟩
      intro y hy
      rcases List.mem_cons.mp hy with hy | hy
      · exact hy ▸ (ih x).1
      · exact (ih x).2 y hy
    · simp only [minQuoteAux, if_neg h]
      refine ⟨(ih b).1, ?_⟩
      intro y hy
      rcases List.mem_cons.mp hy with hy | hy
      · exact hy ▸ le_trans (ih b).1 (not_lt.mp h)
      · exact (ih b).2 y hy

/-- The kept quote is the first-encountered one attaining the minimum: the
scanned list splits so that everything strictly before the kept quote has a
strictly larger charge. -/
theorem minQuoteAux_decomp (qs : List Quote) : ∀ b : Quote,
    ∃ l₁ l₂, b :: qs = l₁ ++ (minQuoteAux b qs) :: l₂ ∧
      ∀ y ∈ l₁, (minQuoteAux b qs).total_charge < y.total_charge := by
  induction qs with
  | nil => intro b; exact ⟨[], [], rfl, by simp⟩
  | cons x xs ih =>
    intro b
    by_cases h : x.total_charge < b.total_charge
    · obtain ⟨l₁, l₂, heq, hgt⟩ := ih x
      simp only [minQuoteAux, if_pos h]
      refine ⟨b :: l₁, l₂, ?_, ?_⟩
      · rw [List.cons_append, ← heq]
      · intro y hy
        rcases List.mem_cons.mp hy with hy | hy
        · exact hy ▸ lt_of_le_of_lt (minQuoteAux_le xs x).1 h
        · exact hgt y hy
    · obtain ⟨l₁, l₂, heq, hgt⟩ := ih b
      simp only [minQuoteAux, if_neg h]
      cases l₁ with
      | nil =>
        simp only [List.nil_append] at heq
        refine ⟨[], x :: xs, ?_, by simp⟩
        rw [List.nil_append, ← (List.cons.injEq _ _ _ _ |>.mp heq).1]
      | cons c l₁ =>
        simp only [List.cons_append, List.cons.injEq] at heq
        obtain ⟨hbc, hxs⟩ := heq
        have hmb : (minQuoteAux b xs).total_charge < b.total_charge := by
          have hc := hgt c (by simp)
          rwa [← hbc] at hc
        refine ⟨b :: x :: l₁, l₂, ?_, ?_⟩
        · rw [List.cons_append, List.cons_append, ← hxs]
        · intro y hy
          rcases List.mem_cons.mp hy with hy | hy
          · rw [hy]; exact hmb
          · rcases List.mem_cons.mp hy with hy | hy
            · rw [hy]; exact lt_of_lt_of_le hmb (not_lt.mp h)
            · exact hgt y (by simp [hy])

/-- `request_json` is falsy in Python: absent/unparseable, or parsed to a
falsy value. This is exactly the `if not request_json` test of the code. -/
def bodyFalsy : Option Json → Bool
  | none => true
  | some j => !jsonTruthy j

/-- A falsy body takes the 400 branch, whatever the upstream does. -/
theorem tryBody_falsy (pb : Option Json) (u : EasyshipRequest → UpstreamOutcome)
    (h : bodyFalsy pb = true) : shippingTryBody pb u = .ok respBadBody := by
  cases pb with
  | none => rfl
  | some j =>
    simp only [bodyFalsy, Bool.not_eq_true'] at h
    simp only [shippingTryBody, h, if_pos]

/-- Every response the `try:` block returns carries the CORS header. -/
theorem tryBody_cors (pb : Option Json) (u : EasyshipRequest → UpstreamOutcome)
    (r : HttpResponse) (h : shippingTryBody pb u = .ok r) : r.corsStar = true := by
  unfold shippingTryBody at h
  repeat' split at h
  all_goals simp_all [respBadBody, respUpstreamErr, respNoRates]
  all_goals (cases h; rfl)

/-- With a truthy body the `try:` block never returns a 400: every other
return carries status 500, 404 or 200. -/
theorem tryBody_not400 (pb : Option Json) (u : EasyshipRequest → UpstreamOutcome)
    (r : HttpResponse) (h : shippingTryBody pb u = .ok r)
    (hf : bodyFalsy pb = false) : r.status ≠ 400 := by
  cases pb with
  | none => simp [bodyFalsy] at hf
  | some j =>
    simp only [bodyFalsy, Bool.not_eq_false] at hf
    unfold shippingTryBody at h
    simp only [hf] at h
    repeat' split at h
    all_goals simp_all [respBadBody, respUpstreamErr, respNoRates]
    all_goals (cases h; simp [respUpstreamErr, respNoRates])

/-! ## Claim theorems -/

/-- Claim C1 (divergence evidence): the readiness loop fails the run only when
the attempt at index 29 raises a transport error. A service answering every
`/health` probe with HTTP 500 consumes all 30 attempts with zero sleeps and the
fixture falls through without failing, so the test cases execute — contrary to
the claim (and to the fixture's own docstring) that a service never answering
200 within the budget fails the whole run. When every attempt raises, the loop
does fail the run naming the service, after 29 one-second sleeps; a service
that raises thrice and then answers 200 is retried and found healthy. -/
theorem C1_readiness_fails_only_on_final_transport_error :
    wait_for_service (fun _ => .resp 500) = (.fellThrough, 0) ∧
    wait_for_services [("Auth", fun _ => .resp 500)] = none ∧
    wait_for_service (fun _ => .exn) = (.failRun, 29) ∧
    wait_for_services [("Auth", fun _ => .exn)] = some "Auth" ∧
    wait_for_service (fun i => if i < 3 then .exn else .resp 200) = (.healthy 3, 3) := by
  refine ⟨by decide, by decide, by decide, by decide, by decide⟩

/-- Claim C3: the formula variant's decision table gives the two spec vectors:
US→US (domestic, zone 0) weighs in at 8 + 2·6.50 + 0 = 21.0 with courier
"National Post", and DE→FR (both in the EU set, zone 12) at
8 + 1·6.50 + 12 = 26.5 with courier "DHL Express EU" — for any EU set
containing DE and FR and any values of the US-involved/other rows, since the
rows fire in priority order. -/
theorem C3_formula_variant_vectors (eu : List String) (usZone otherZone : ℚ)
    (usCourier otherCourier : String)
    (hDE : "DE" ∈ eu) (hFR : "FR" ∈ eu) :
    formulaEstimate "US" "US" 2 eu usZone otherZone usCourier otherCourier =
      (21, "National Post") ∧
    formulaEstimate "DE" "FR" 1 eu usZone otherZone usCourier otherCourier =
      (26.5, "DHL Express EU") := by
  constructor
  · norm_num [formulaEstimate, formulaZone, round2]
  · norm_num [formulaEstimate, formulaZone, round2, hDE, hFR,
      show ("DE" : String) ≠ "FR" from by decide]

/-- Witness for C3 at the concrete EU set `[DE, FR]` and arbitrary values for
the unspecified rows. -/
theorem C3_formula_variant_vectors_witness :
    formulaEstimate "US" "US" 2 ["DE", "FR"] 0 0 "X" "Y" = (21, "National Post") ∧
    formulaEstimate "DE" "FR" 1 ["DE", "FR"] 0 0 "X" "Y" = (26.5, "DHL Express EU") :=
  C3_formula_variant_vectors ["DE", "FR"] 0 0 "X" "Y" (by decide) (by decide)

/-- Claim C5: the registration assertion passes exactly on the statuses 200
(OK — the request was accepted), 201 (Created) and 409 (Conflict — the user
already exists); in particular a second registration of the same username
answering 409 passes, and a failed registration assertion fails the whole
test case whatever the login step would have returned. -/
theorem C5_registration_accepts_exactly_200_201_409
    (regStatus loginStatus : Nat) (loginBody : Json) :
    (registrationStepPasses regStatus = true ↔
      (regStatus = 200 ∨ regStatus = 201 ∨ regStatus = 409)) ∧
    registrationStepPasses 409 = true ∧
    (registrationStepPasses regStatus = false →
      test_user_registration_and_login regStatus loginStatus loginBody = false) := by
  refine ⟨?_, by decide, ?_⟩
  · simp [registrationStepPasses, List.contains]
  · intro h
    simp [test_user_registration_and_login, h]

/-- Claim C6: the authorization test passes iff the unauthenticated request
returned 401 or 403 and the bearer-token request returned 200 or 404; hence a
passing run never saw a 200 without a token, nor a 401/403 with one. -/
theorem C6_auth_enforcement_statuses (noTok withTok : Nat) :
    (test_catalog_requires_auth noTok withTok = true ↔
      ((noTok = 401 ∨ noTok = 403) ∧ (withTok = 200 ∨ withTok = 404))) ∧
    (test_catalog_requires_auth noTok withTok = true →
      noTok ≠ 200 ∧ withTok ≠ 401 ∧ withTok ≠ 403) := by
  have hiff : test_catalog_requires_auth noTok withTok = true ↔
      ((noTok = 401 ∨ noTok = 403) ∧ (withTok = 200 ∨ withTok = 404)) := by
    simp [test_catalog_requires_auth, List.contains]
  refine ⟨hiff, fun h => ?_⟩
  obtain ⟨h1, h2⟩ := hiff.mp h
  rcases h1 with h1 | h1 <;> rcases h2 with h2 | h2 <;> subst h1 <;> subst h2 <;>
    exact ⟨by decide, by decide, by decide⟩

/-- Claim C8: the smoke-test script exits 0 iff obtaining the client and all
three RPC calls complete without raising; a false result always exits 1; the
stack trace is printed exactly on failure; and a raising step skips the
remaining RPC calls (a raise in `validate_items` leaves the attempt count at
1, one in `get_item` at 2). -/
theorem C8_grpc_exit_codes_and_skipping (client : Except String Unit)
    (validate : Except String (List ValidationEntry))
    (getOne : Except String (Option Item))
    (getMany : Except String ItemsResult) :
    (scriptExitCode (test_grpc client validate getOne getMany) = 0 ↔
      (stepOk client = true ∧ stepOk validate = true ∧
        stepOk getOne = true ∧ stepOk getMany = true)) ∧
    ((test_grpc client validate getOne getMany).success = false →
      scriptExitCode (test_grpc client validate getOne getMany) = 1) ∧
    ((test_grpc client validate getOne getMany).success = false ↔
      (test_grpc client validate getOne getMany).tracePrinted = true) ∧
    (stepOk client = true → stepOk validate = false →
      (test_grpc client validate getOne getMany).rpcCallsAttempted = 1) ∧
    (stepOk client = true → stepOk validate = true → stepOk getOne = false →
      (test_grpc client validate getOne getMany).rpcCallsAttempted = 2) := by
  rcases client with msg | c <;> rcases validate with msg1 | v <;>
    rcases getOne with msg2 | g <;> rcases getMany with msg3 | gm <;>
    simp [test_grpc, scriptExitCode, stepOk]

/-- The well-formed POST body of claim C9: a valid JSON object whose
`weight_kg` is the non-numeric string "abc". -/
def c9Body : Json := .obj [("to_country", .str "US"), ("weight_kg", .str "abc")]

/-- Claim C9: on a well-formed body with `weight_kg = "abc"`, `float()` raises
before the upstream is ever consulted; the top-level catch turns it into a 500
carrying the conversion error, not a 400 client error — for every upstream
behaviour. -/
theorem C9_nonnumeric_weight_is_500_not_400
    (u : EasyshipRequest → UpstreamOutcome) :
    get_shipping_estimate .POST (some c9Body) u =
      ⟨500, .payload false (some "could not convert string to float: abc") none, true⟩ ∧
    (get_shipping_estimate .POST (some c9Body) u).status = 500 ∧
    (get_shipping_estimate .POST (some c9Body) u).status ≠ 400 := by
  have h : get_shipping_estimate .POST (some c9Body) u =
      ⟨500, .payload false (some "could not convert string to float: abc") none, true⟩ := rfl
  exact ⟨h, by rw [h], by rw [h]; decide⟩

/-- Reading the `rates` field of a rates response. -/
theorem pyGet_ratesResponse (qs : List Quote) :
    pyGet (ratesResponse qs) "rates" (.arr []) = .ok (.arr (qs.map mkRateJson)) := rfl

/-- What the `try:` block does against an upstream answering 200 with a list
of well-formed quotes: the 404 branch on zero quotes, otherwise the 200
response built from the kept quote of the linear scan. -/
theorem tryBody_rates (j : Json) (req : EasyshipRequest) (hj : jsonTruthy j = true)
    (hreq : buildEasyshipRequest j = .ok req) : ∀ qs : List Quote,
    shippingTryBody (some j) (ratesUpstream qs) =
      match qs with
      | [] => .ok respNoRates
      | b :: rest =>
        .ok ⟨200, .payload true none (some ⟨.num (minQuoteAux b rest).total_charge,
          .str (minQuoteAux b rest).currency,
          .str (minQuoteAux b rest).courier_name⟩), true⟩ := by
  intro qs
  cases qs with
  | nil =>
    simp only [shippingTryBody, hj, hreq]
    simp [ratesUpstream, pyGet_ratesResponse, jsonTruthy, respNoRates]
  | cons b rest =>
    simp only [shippingTryBody, hj, hreq]
    simp [ratesUpstream, pyGet_ratesResponse, jsonTruthy]
    rw [← List.map_cons, minRate_map]
    simp [pyIndex_mk_charge, pyIndex_mk_currency, pyIndex_mk_courier]

/-- Claim C2: when the upstream rates call succeeds with quotes `qs`, the
handler returns 404 with `success = false` on zero quotes, and otherwise 200
with the cost, currency and courier of a quote `m` whose `total_charge` is the
minimum over all of `qs`, ties broken by the first-encountered quote: `qs`
splits as `l₁ ++ m :: l₂` with every quote of `l₁` strictly more expensive. -/
theorem C2_cheapest_rate_selection (qs : List Quote) (j : Json)
    (req : EasyshipRequest) (hj : jsonTruthy j = true)
    (hreq : buildEasyshipRequest j = .ok req) :
    (qs = [] →
      get_shipping_estimate .POST (some j) (ratesUpstream qs) = respNoRates) ∧
    (qs ≠ [] →
      ∃ l₁ m l₂, qs = l₁ ++ m :: l₂ ∧
        (∀ x ∈ qs, m.total_charge ≤ x.total_charge) ∧
        (∀ y ∈ l₁, m.total_charge < y.total_charge) ∧
        get_shipping_estimate .POST (some j) (ratesUpstream qs) =
          ⟨200, .payload true none (some ⟨.num m.total_charge,
            .str m.currency, .str m.courier_name⟩), true⟩) := by
  constructor
  · rintro rfl
    unfold get_shipping_estimate
    rw [tryBody_rates j req hj hreq []]
  · intro hne
    obtain ⟨b, rest, rfl⟩ := List.exists_cons_of_ne_nil hne
    obtain ⟨l₁, l₂, heq, hgt⟩ := minQuoteAux_decomp rest b
    refine ⟨l₁, minQuoteAux b rest, l₂, heq, ?_, hgt, ?_⟩
    · intro x hx
      rcases List.mem_cons.mp hx with hx | hx
      · rw [hx]; exact (minQuoteAux_le rest b).1
      · exact (minQuoteAux_le rest b).2 x hx
    · unfold get_shipping_estimate
      rw [tryBody_rates j req hj hreq (b :: rest)]

/-- The concrete body of the C2 witness. -/
def c2Body : Json := .obj [("to_country", .str "US")]

/-- The Easyship request the handler builds from `c2Body`. -/
def c2Req : EasyshipRequest :=
  ⟨.str "US", .str "US", "Sender", false, [⟨1, 10, 10, 10, "USD", 50⟩], none, none, none⟩

/-- Three concrete quotes for the C2 witness. -/
def c2Quotes : List Quote :=
  [⟨10, "USD", "CourA"⟩, ⟨5, "USD", "CourB"⟩, ⟨6, "USD", "CourC"⟩]

/-- Witness for C2 at a concrete body and three concrete quotes. -/
theorem C2_cheapest_rate_selection_witness :
    (c2Quotes = [] →
      get_shipping_estimate .POST (some c2Body) (ratesUpstream c2Quotes) = respNoRates) ∧
    (c2Quotes ≠ [] →
      ∃ l₁ m l₂, c2Quotes = l₁ ++ m :: l₂ ∧
        (∀ x ∈ c2Quotes, m.total_charge ≤ x.total_charge) ∧
        (∀ y ∈ l₁, m.total_charge < y.total_charge) ∧
        get_shipping_estimate .POST (some c2Body) (ratesUpstream c2Quotes) =
          ⟨200, .payload true none (some ⟨.num m.total_charge,
            .str m.currency, .str m.courier_name⟩), true⟩) :=
  C2_cheapest_rate_selection c2Quotes c2Body c2Req rfl rfl

/-- An upstream the counterexample never reaches. -/
def unusedUpstream : EasyshipRequest → UpstreamOutcome := fun _ => .exn "unreachable"

/-- Claim C4 counterexample: the body `{}` is present and parses as JSON, yet
the handler returns the 400 "Request body must be JSON" response, because the
code's `if not request_json` also fires on a parsed-but-falsy value. -/
theorem C4_counterexample_empty_object_gets_400 :
    get_shipping_estimate .POST (some (.obj [])) unusedUpstream = respBadBody ∧
    respBadBody.status = 400 := ⟨rfl, rfl⟩

/-- Claim C4 as amended: a POST returns 400 iff the parsed body is Python-falsy
— absent, unparseable, or parsed to a falsy value such as `{}`; the 400
response carries the non-empty error "Request body must be JSON", and on any
truthy body processing proceeds (the status is never 400). -/
theorem C4_bad_request_iff_falsy_body (pb : Option Json)
    (u : EasyshipRequest → UpstreamOutcome) :
    ((get_shipping_estimate .POST pb u).status = 400 ↔ bodyFalsy pb = true) ∧
    ((get_shipping_estimate .POST pb u).status = 400 →
      get_shipping_estimate .POST pb u = respBadBody) := by
  have h1 : bodyFalsy pb = true → get_shipping_estimate .POST pb u = respBadBody := by
    intro hb
    unfold get_shipping_estimate
    rw [tryBody_falsy pb u hb]
  have h2 : bodyFalsy pb = false → (get_shipping_estimate .POST pb u).status ≠ 400 := by
    intro hf
    unfold get_shipping_estimate
    cases htb : shippingTryBody pb u with
    | error msg => simp
    | ok r => exact tryBody_not400 pb u r htb hf
  have hiff : (get_shipping_estimate .POST pb u).status = 400 ↔ bodyFalsy pb = true := by
    constructor
    · intro h400
      cases hb : bodyFalsy pb with
      | false => exact absurd h400 (h2 hb)
      | true => rfl
    · intro hb
      rw [h1 hb]
      rfl
  exact ⟨hiff, fun h400 => h1 (hiff.mp h400)⟩

/-- Claim C7: every response of the handler — the `OPTIONS` reply included —
carries `Access-Control-Allow-Origin: *`; and whenever the `try:` block raises
with message `msg` on a non-`OPTIONS` request, the handler returns exactly the
500 response with `success = false` and `error = msg`. (`get_shipping_estimate`
is a total function, so no exception propagates to the caller.) -/
theorem C7_top_level_catch_and_cors (m : Method) (pb : Option Json)
    (u : EasyshipRequest → UpstreamOutcome) :
    ((get_shipping_estimate m pb u).corsStar = true) ∧
    (∀ msg, m ≠ .OPTIONS → shippingTryBody pb u = .error msg →
      get_shipping_estimate m pb u = ⟨500, .payload false (some msg) none, true⟩) := by
  constructor
  · cases m with
    | OPTIONS => rfl
    | GET =>
      unfold get_shipping_estimate
      cases htb : shippingTryBody pb u with
      | error msg => simp
      | ok r => simpa using tryBody_cors pb u r htb
    | POST =>
      unfold get_shipping_estimate
      cases htb : shippingTryBody pb u with
      | error msg => simp
      | ok r => simpa using tryBody_cors pb u r htb
  · intro msg hm htb
    cases m with
    | OPTIONS => exact absurd rfl hm
    | GET =>
      unfold get_shipping_estimate
      rw [htb]
    | POST =>
      unfold get_shipping_estimate
      rw [htb]

/-- Claim C10: a truthy POST body without a `to_country` key is never
rejected: `to_country` silently defaults to `"US"` (any successfully built
upstream request targets destination `"US"`, exactly as `from_country`
defaults), and the handler's status is never 400 for such a body. -/
theorem C10_missing_to_country_defaults_to_US
    (fs : List (String × Json)) (u : EasyshipRequest → UpstreamOutcome)
    (req : EasyshipRequest) (hne : fs ≠ [])
    (hk : ∀ p ∈ fs, p.1 ≠ "to_country") :
    (buildEasyshipRequest (.obj fs) = .ok req →
      req.destination_country_alpha2 = .str "US") ∧
    (get_shipping_estimate .POST (some (.obj fs)) u).status ≠ 400 := by
  have hfind : fs.find? (fun p => p.1 == "to_country") = none := by
    rw [List.find?_eq_none]
    intro p hp
    simp [hk p hp]
  constructor
  · intro hreq
    simp only [buildEasyshipRequest, pyGet] at hreq
    cases hw : pyFloat (dictGet fs "weight_kg" (.num 1)) with
    | error e =>
      rw [hw] at hreq
      exact absurd hreq (by simp)
    | ok w =>
      rw [hw] at hreq
      injection hreq with h
      rw [← h]
      simp [dictGet, hfind]
  · have hf : bodyFalsy (some (.obj fs)) = false := by
      simp [bodyFalsy, jsonTruthy, hne]
    unfold get_shipping_estimate
    cases htb : shippingTryBody (some (.obj fs)) u with
    | error msg => simp
    | ok r => exact tryBody_not400 _ u r htb hf

/-- The concrete field list of the C10 witness: no `to_country` key. -/
def c10Fields : List (String × Json) := [("from_country", .str "CA")]

/-- The request the handler builds from the C10 witness body. -/
def c10Req : EasyshipRequest :=
  ⟨.str "CA", .str "US", "Sender", false, [⟨1, 10, 10, 10, "USD", 50⟩], none, none, none⟩

/-- Witness for C10 at a concrete body that omits `to_country`. -/
theorem C10_missing_to_country_defaults_to_US_witness :
    (buildEasyshipRequest (.obj c10Fields) = .ok c10Req →
      c10Req.destination_country_alpha2 = .str "US") ∧
    (get_shipping_estimate .POST (some (.obj c10Fields)) unusedUpstream).status ≠ 400 :=
  C10_missing_to_country_defaults_to_US c10Fields unusedUpstream c10Req
    (List.cons_ne_nil _ _)
    (fun p hp => by rw [List.mem_singleton.mp hp]; decide)

end Swappo
